import Mathlib

/-!
Shallow embedding of `src/simulacion_paralela.c` (OpenMP traffic simulation:
vehicles and traffic lights on a closed 1-D road), together with theorems
checking the specification's claims against it.

Conventions of the embedding:
* C `int` is modelled as `Int`; C `%` is `Int.tmod` and C `/` is `Int.tdiv`
  (both truncate toward zero, as C99 does).
* The OpenMP `parallel for` loops have independent iterations (each writes
  only its own record), so they are modelled by `List.map` over the index
  range, i.e. by their sequential elaboration.  The one loop whose
  iterations share mutable state (`inicializar_vehiculos`, which draws from
  the global `rand()` stream inside the parallel region) additionally gets
  an interleaving-explicit variant below.
* `rand()` is modelled by a stream `r : Nat → Nat` giving the successive
  values the generator produces after `srand(seed)`; the stream is a pure
  function of the seed.
-/

namespace Trafico

/-- enum EstadoSemaforo { ROJO = 0, VERDE = 1, AMARILLO = 2 } -/
inductive EstadoSemaforo where
  | ROJO
  | VERDE
  | AMARILLO
deriving DecidableEq, Repr

/-- struct Semaforo -/
structure Semaforo where
  id : Int
  pos : Int
  estado : EstadoSemaforo
  t_en_estado : Int
  dur_rojo : Int
  dur_verde : Int
  dur_amarillo : Int
deriving DecidableEq, Repr

/-- struct Vehiculo -/
structure Vehiculo where
  id : Int
  pos : Int
  vel_max : Int
deriving DecidableEq, Repr

/-- The C helper `mod_pos(x, m)`: C computes `r = x % m` (truncating remainder) and adds
`m` when the remainder is negative. -/
def mod_pos (x m : Int) : Int :=
  let r := x.tmod m
  if r < 0 then r + m else r

/-- The C function `inicializar_vehiculos(v, n, road_len, seed)`, sequential elaboration:
iteration `i` draws `rand()` for the jitter (call number `2*i`) and then for
the speed (call number `2*i+1`); when `espacio ≤ 1` no jitter is drawn and
the speed uses call number `i`. -/
def inicializar_vehiculos (n : Nat) (road_len : Int) (r : Nat → Nat) : List Vehiculo :=
  let espacio : Int := if road_len > (n : Int) then road_len.tdiv (n : Int) else 1
  (List.range n).map (fun (i : Nat) =>
    if espacio > 1 then
      { id := (i : Int)
        pos := mod_pos ((i : Int) * espacio + ((r (2 * i) : Int)).tmod espacio) road_len
        vel_max := 1 + ((r (2 * i + 1) : Int)).tmod 2 }
    else
      { id := (i : Int)
        pos := mod_pos ((i : Int) * espacio) road_len
        vel_max := 1 + ((r i : Int)).tmod 2 })

/-- Variant of `inicializar_vehiculos` with the interleaving of the shared `rand()`
stream made explicit: the OpenMP threads' calls to `rand()` happen in some
global temporal order, and `σ i = (a, b)` says iteration `i`'s jitter draw
was the `a`-th call overall and its speed draw the `b`-th.  The sequential
single-thread execution is `σ i = (2*i, 2*i+1)`. -/
def inicializar_vehiculos_intercalado (n : Nat) (road_len : Int) (r : Nat → Nat)
    (σ : Nat → Nat × Nat) : List Vehiculo :=
  let espacio : Int := if road_len > (n : Int) then road_len.tdiv (n : Int) else 1
  (List.range n).map (fun (i : Nat) =>
    if espacio > 1 then
      { id := (i : Int)
        pos := mod_pos ((i : Int) * espacio + ((r (σ i).1 : Int)).tmod espacio) road_len
        vel_max := 1 + ((r (σ i).2 : Int)).tmod 2 }
    else
      { id := (i : Int)
        pos := mod_pos ((i : Int) * espacio) road_len
        vel_max := 1 + ((r (σ i).2 : Int)).tmod 2 })

/-- A realizable interleaving of the per-iteration `rand()` call pairs when
`espacio > 1`: the `2*n` calls occupy distinct temporal slots `< 2*n`, and
within one iteration the jitter call happens before the speed call. -/
def HorarioValido (n : Nat) (σ : Nat → Nat × Nat) : Prop :=
  (∀ i, i < n → (σ i).1 < (σ i).2 ∧ (σ i).2 < 2 * n) ∧
  (∀ i, i < n → ∀ j, j < n → i ≠ j →
    (σ i).1 ≠ (σ j).1 ∧ (σ i).1 ≠ (σ j).2 ∧ (σ i).2 ≠ (σ j).1 ∧ (σ i).2 ≠ (σ j).2)

/-- The C function `inicializar_semaforos(s, n, road_len, ciclo_total)`.  The C code sets
`dur_verde = (int)(ciclo_total * 0.5)` and `dur_amarillo = (int)(ciclo_total
* 0.2)` using `double` arithmetic; for every C `int` value of `ciclo_total`
the rounding error of the products (at most a few times `2^-52` relative)
is smaller than the distance to the nearest integer boundary, so the casts
equal the truncated integer divisions by 2 and by 5 used here. -/
def inicializar_semaforos (n : Nat) (road_len : Int) (ciclo_total : Int) : List Semaforo :=
  let espacio : Int := if road_len > (n : Int) then road_len.tdiv (n : Int) else 1
  (List.range n).map (fun (i : Nat) =>
    let dv : Int := ciclo_total.tdiv 2
    let da : Int := ciclo_total.tdiv 5
    let dr : Int := ciclo_total - dv - da
    { id := (i : Int)
      pos := mod_pos ((i : Int) * espacio) road_len
      estado := if i % 2 = 0 then EstadoSemaforo.VERDE else EstadoSemaforo.ROJO
      t_en_estado := 0
      dur_verde := if dv < 1 then 1 else dv
      dur_amarillo := if da < 1 then 1 else da
      dur_rojo := if dr < 1 then 1 else dr })

/-- The C helper `siguiente_estado(&s)`. -/
def siguiente_estado (s : Semaforo) : EstadoSemaforo :=
  match s.estado with
  | EstadoSemaforo.VERDE => EstadoSemaforo.AMARILLO
  | EstadoSemaforo.AMARILLO => EstadoSemaforo.ROJO
  | EstadoSemaforo.ROJO => EstadoSemaforo.VERDE

/-- the `limite` computed by the `switch` in `actualizar_semaforos` -/
def limite_estado (s : Semaforo) : Int :=
  match s.estado with
  | EstadoSemaforo.VERDE => s.dur_verde
  | EstadoSemaforo.AMARILLO => s.dur_amarillo
  | EstadoSemaforo.ROJO => s.dur_rojo

/-- Loop body of `actualizar_semaforos` for one light: increment
`t_en_estado`, compare with the current phase's duration, transition and
reset on reaching it. -/
def actualizar_semaforo (s : Semaforo) : Semaforo :=
  let s1 := { s with t_en_estado := s.t_en_estado + 1 }
  if s1.t_en_estado ≥ limite_estado s1 then
    { s1 with estado := siguiente_estado s1, t_en_estado := 0 }
  else
    s1

/-- The C function `actualizar_semaforos(s, n)`: the parallel-for mutates each light
independently. -/
def actualizar_semaforos (ss : List Semaforo) : List Semaforo :=
  ss.map actualizar_semaforo

/-- The scan over the snapshot inside `mover_vehiculos`: the C loop breaks
at the first light whose position equals the destination cell. -/
def buscar_en_destino : List Semaforo → Int → Option Semaforo
  | [], _ => none
  | s :: rest, destino =>
      if s.pos = destino then some s else buscar_en_destino rest destino

/-- Loop body of `mover_vehiculos` for one vehicle. -/
def mover_vehiculo (road_len : Int) (snap : List Semaforo) (v : Vehiculo) : Vehiculo :=
  let destino := mod_pos (v.pos + v.vel_max) road_len
  let puede_mover : Bool :=
    match buscar_en_destino snap destino with
    | some s =>
        if s.estado = EstadoSemaforo.ROJO ∨ s.estado = EstadoSemaforo.AMARILLO then
          false
        else
          true
    | none => true
  if puede_mover then { v with pos := destino } else v

/-- The C function `mover_vehiculos(v, n_veh, sem_snapshot, n_sem, road_len)`: the
parallel-for mutates each vehicle independently against the read-only
snapshot. -/
def mover_vehiculos (vs : List Vehiculo) (snap : List Semaforo) (road_len : Int) : List Vehiculo :=
  vs.map (mover_vehiculo road_len snap)

/-- The per-tick worker-count heuristic inside `simular_dinamico`:
`hilos = (n_veh + 7) / 8 + (n_sem + 3) / 4`, raised to 2 when below 2. -/
def hilos_recomendados (n_veh n_sem : Int) : Int :=
  let hilos := (n_veh + 7).tdiv 8 + (n_sem + 3).tdiv 4
  if hilos < 2 then 2 else hilos

/-- One loop iteration of `simular_dinamico` with `usar_secciones == 0`:
update the lights, snapshot the updated lights, move the vehicles against
that snapshot. -/
def paso_secuencial (road_len : Int) (st : List Vehiculo × List Semaforo) :
    List Vehiculo × List Semaforo :=
  let ss := actualizar_semaforos st.2
  (mover_vehiculos st.1 ss road_len, ss)

/-- One loop iteration of `simular_dinamico` with `usar_secciones != 0`:
snapshot the lights first, then the two `omp section`s run
`actualizar_semaforos` on the lights and `mover_vehiculos` against the
pre-update snapshot; they write disjoint records, so the outcome is the
pair below regardless of their interleaving. -/
def paso_secciones (road_len : Int) (st : List Vehiculo × List Semaforo) :
    List Vehiculo × List Semaforo :=
  let snap := st.2
  (mover_vehiculos st.1 snap road_len, actualizar_semaforos st.2)

/-- One iteration of `simular_dinamico`'s loop (the printing and the delay
do not touch the simulation state). -/
def paso (usar_secciones : Bool) (road_len : Int) (st : List Vehiculo × List Semaforo) :
    List Vehiculo × List Semaforo :=
  if usar_secciones then paso_secciones road_len st else paso_secuencial road_len st

/-- The C function `simular_dinamico(iteraciones, ...)` restricted to its effect on the
simulation state: the loop body applied `iteraciones` times. -/
def simular_dinamico (usar_secciones : Bool) (road_len : Int) :
    Nat → List Vehiculo × List Semaforo → List Vehiculo × List Semaforo
  | 0, st => st
  | k + 1, st => simular_dinamico usar_secciones road_len k (paso usar_secciones road_len st)

/-- The startup boundary of `main`: the configuration guard
`n_veh <= 0 || n_sem <= 0 || iters <= 0 || road <= 5` runs before the
vehicle and light arrays are allocated and initialized, so a rejected
configuration produces no simulation state at all. -/
def main_inicio (n_veh n_sem iters road ciclo : Int) (r : Nat → Nat) :
    Option (List Vehiculo × List Semaforo) :=
  if n_veh ≤ 0 ∨ n_sem ≤ 0 ∨ iters ≤ 0 ∨ road ≤ 5 then
    none
  else
    some (inicializar_vehiculos n_veh.toNat road r, inicializar_semaforos n_sem.toNat road ciclo)

/-- The phase cycle exactly as the spec words it:
GREEN→YELLOW→RED→GREEN, with no skipped phase. -/
def fase_siguiente_spec : EstadoSemaforo → EstadoSemaforo
  | EstadoSemaforo.VERDE => EstadoSemaforo.AMARILLO
  | EstadoSemaforo.AMARILLO => EstadoSemaforo.ROJO
  | EstadoSemaforo.ROJO => EstadoSemaforo.VERDE

/-- The duration selector `duration_for(phase)` as the spec words it. -/
def duracion_de (s : Semaforo) : EstadoSemaforo → Int
  | EstadoSemaforo.VERDE => s.dur_verde
  | EstadoSemaforo.AMARILLO => s.dur_amarillo
  | EstadoSemaforo.ROJO => s.dur_rojo

/-- Positive per-phase durations and a non-negative counter: what
initialization establishes for every light. -/
def semaforo_sano (s : Semaforo) : Prop :=
  1 ≤ s.dur_verde ∧ 1 ≤ s.dur_amarillo ∧ 1 ≤ s.dur_rojo ∧ 0 ≤ s.t_en_estado

/-! ### Concrete example entities used by witnesses -/

/-- A RED light at cell 50 (durations red 3, green 5, yellow 2). -/
def semaforoRojoEn50 : Semaforo :=
  ⟨0, 50, EstadoSemaforo.ROJO, 0, 3, 5, 2⟩

/-- A GREEN light at cell 50 with a fresh counter. -/
def semaforoVerdeEn50 : Semaforo :=
  ⟨3, 50, EstadoSemaforo.VERDE, 0, 3, 5, 2⟩

/-- A GREEN light one tick before the end of its green duration 5. -/
def semaforoVerdePorVencer : Semaforo :=
  ⟨0, 0, EstadoSemaforo.VERDE, 4, 3, 5, 2⟩

/-- A vehicle at cell 48 with maximum speed 2. -/
def vehiculoEn48 : Vehiculo :=
  ⟨7, 48, 2⟩

/-! ### Helper lemmas -/

/-- For a positive modulus, `mod_pos` computes the mathematical
(non-negative) remainder, i.e. Lean's `Int.emod`. -/
theorem mod_pos_eq_emod (x m : Int) (hm : 0 < m) : mod_pos x m = x % m := by
  have hx : x.tmod m + m * x.tdiv m = x := Int.tmod_add_tdiv x m
  have hub : x.tmod m < m := Int.tmod_lt_of_pos x hm
  have hneg : x.tmod m = -((-x).tmod m) := by
    rw [Int.tmod_def, Int.tmod_def, Int.neg_tdiv]; ring
  have hub2 : (-x).tmod m < m := Int.tmod_lt_of_pos (-x) hm
  unfold mod_pos
  by_cases hc : x.tmod m < 0
  · rw [if_pos hc]
    exact ((Int.ediv_emod_unique hm (a := x) (r := x.tmod m + m) (q := x.tdiv m - 1)).mpr
      ⟨by linear_combination hx, by omega, by omega⟩).2.symm
  · rw [if_neg hc]
    exact ((Int.ediv_emod_unique hm (a := x) (r := x.tmod m) (q := x.tdiv m)).mpr
      ⟨by linear_combination hx, by omega, hub⟩).2.symm

/-- For a positive modulus, `mod_pos` lands in `[0, m)`. -/
theorem mod_pos_cotas (x m : Int) (hm : 0 < m) : 0 ≤ mod_pos x m ∧ mod_pos x m < m := by
  have hub : x.tmod m < m := Int.tmod_lt_of_pos x hm
  have hneg : x.tmod m = -((-x).tmod m) := by
    rw [Int.tmod_def, Int.tmod_def, Int.neg_tdiv]; ring
  have hub2 : (-x).tmod m < m := Int.tmod_lt_of_pos (-x) hm
  unfold mod_pos
  dsimp only
  split <;> omega

/-- Ceiling division `⌈a / 8⌉` agrees with the C idiom `(a + 7) / 8` (for any integer `a`;
the divisions are Euclidean). -/
theorem techo_div8 (a : Int) : (⌈(a : ℚ) / 8⌉ : ℤ) = (a + 7) / 8 := by
  rw [show ((a : ℚ) / 8) = -(((-a : ℤ) : ℚ) / ((8 : ℕ) : ℚ)) by push_cast; ring]
  rw [Int.ceil_neg, Rat.floor_intCast_div_natCast]
  omega

/-- Ceiling division `⌈a / 4⌉` agrees with the C idiom `(a + 3) / 4`. -/
theorem techo_div4 (a : Int) : (⌈(a : ℚ) / 4⌉ : ℤ) = (a + 3) / 4 := by
  rw [show ((a : ℚ) / 4) = -(((-a : ℤ) : ℚ) / ((4 : ℕ) : ℚ)) by push_cast; ring]
  rw [Int.ceil_neg, Rat.floor_intCast_div_natCast]
  omega

/-- Truncated division by 2 equals `⌊c * 0.5⌋` for non-negative `c`. -/
theorem piso_mitad (c : Int) (h : 0 ≤ c) : c.tdiv 2 = ⌊(c : ℚ) * (1 / 2)⌋ := by
  rw [Int.tdiv_eq_ediv h (by omega)]
  rw [show ((c : ℚ) * (1 / 2)) = ((c : ℤ) : ℚ) / ((2 : ℕ) : ℚ) by push_cast; ring]
  rw [Rat.floor_intCast_div_natCast]
  norm_cast

/-- Truncated division by 5 equals `⌊c * 0.2⌋` for non-negative `c`. -/
theorem piso_quinto (c : Int) (h : 0 ≤ c) : c.tdiv 5 = ⌊(c : ℚ) * (1 / 5)⌋ := by
  rw [Int.tdiv_eq_ediv h (by omega)]
  rw [show ((c : ℚ) * (1 / 5)) = ((c : ℤ) : ℚ) / ((5 : ℕ) : ℚ) by push_cast; ring]
  rw [Rat.floor_intCast_div_natCast]
  norm_cast

/-! ### Claim C6: worker-count heuristic -/

/-- C6: for `n_vehicles ≥ 1` and `n_lights ≥ 1` the recommended worker
count is `ceil(n_vehicles/8) + ceil(n_lights/4)` clamped below to 2; it is
2 for (1,1), 4 for (16,8), 5 for (17,5), and always at least 2. -/
theorem hilos_recomendados_correcto (nv ns : Int) (hv : 1 ≤ nv) (hs : 1 ≤ ns) :
    hilos_recomendados nv ns = max 2 (⌈(nv : ℚ) / 8⌉ + ⌈(ns : ℚ) / 4⌉) ∧
    2 ≤ hilos_recomendados nv ns ∧
    hilos_recomendados 1 1 = 2 ∧
    hilos_recomendados 16 8 = 4 ∧
    hilos_recomendados 17 5 = 5 := by
  refine ⟨?_, ?_, by decide, by decide, by decide⟩ <;>
  · have h8 := techo_div8 nv
    have h4 := techo_div4 ns
    have hA : (nv + 7).tdiv 8 = (nv + 7) / 8 := Int.tdiv_eq_ediv (by omega) (by omega)
    have hB : (ns + 3).tdiv 4 = (ns + 3) / 4 := Int.tdiv_eq_ediv (by omega) (by omega)
    simp only [hilos_recomendados]
    rw [hA, hB]
    first
      | (rw [h8, h4]; omega)
      | omega

/-- Witness for C6 at the concrete input (17, 5). -/
theorem hilos_recomendados_correcto_testigo :
    (1 : Int) ≤ 17 ∧ (1 : Int) ≤ 5 ∧ 2 ≤ hilos_recomendados 17 5 :=
  ⟨by norm_num, by norm_num,
    (hilos_recomendados_correcto 17 5 (by norm_num) (by norm_num)).2.1⟩

/-! ### Claim C9: configuration validation -/

/-- C9: a configuration with `n_veh ≤ 0`, `n_sem ≤ 0`, `iters ≤ 0` or
`road ≤ 5` is rejected by `main` before any vehicle or light array is
created, so no simulation state exists. -/
theorem rechazo_configuracion (n_veh n_sem iters road ciclo : Int) (r : Nat → Nat)
    (h : n_veh ≤ 0 ∨ n_sem ≤ 0 ∨ iters ≤ 0 ∨ road ≤ 5) :
    main_inicio n_veh n_sem iters road ciclo r = none := by
  unfold main_inicio
  rw [if_pos h]

/-- Witness for C9: `n_veh = 0` with an otherwise fine configuration. -/
theorem rechazo_configuracion_testigo :
    main_inicio 0 4 5 100 9 (fun k => k) = none :=
  rechazo_configuracion 0 4 5 100 9 (fun k => k) (Or.inl (by norm_num))

/-! ### Claim C7: light durations at initialization -/

/-- C7: for `total_cycle ≥ 1`, each light of `inicializar_semaforos` has
`green = floor(total_cycle·0.5)`, `yellow = floor(total_cycle·0.2)` and
`red = total_cycle − green − yellow` (from the pre-clamp green and yellow),
each clamped below to 1. -/
theorem duraciones_semaforo (n : Nat) (road ciclo : Int) (hc : 1 ≤ ciclo)
    (i : Nat) (h : i < (inicializar_semaforos n road ciclo).length) :
    ((inicializar_semaforos n road ciclo).get ⟨i, h⟩).dur_verde
      = max 1 ⌊(ciclo : ℚ) * (1 / 2)⌋ ∧
    ((inicializar_semaforos n road ciclo).get ⟨i, h⟩).dur_amarillo
      = max 1 ⌊(ciclo : ℚ) * (1 / 5)⌋ ∧
    ((inicializar_semaforos n road ciclo).get ⟨i, h⟩).dur_rojo
      = max 1 (ciclo - ⌊(ciclo : ℚ) * (1 / 2)⌋ - ⌊(ciclo : ℚ) * (1 / 5)⌋) := by
  have h2 := piso_mitad ciclo (by omega)
  have h5 := piso_quinto ciclo (by omega)
  simp only [inicializar_semaforos, List.get_eq_getElem, List.getElem_map, List.getElem_range]
  rw [← h2, ← h5]
  generalize ciclo.tdiv 2 = dv at *
  generalize ciclo.tdiv 5 = da at *
  refine ⟨by omega, by omega, by omega⟩

/-- Witness for C7 at `ciclo = 10` (one light, road length 100). -/
theorem duraciones_semaforo_testigo :
    ((inicializar_semaforos 1 100 10).get ⟨0, by decide⟩).dur_verde
      = max 1 ⌊(10 : ℚ) * (1 / 2)⌋ ∧
    ((inicializar_semaforos 1 100 10).get ⟨0, by decide⟩).dur_amarillo
      = max 1 ⌊(10 : ℚ) * (1 / 5)⌋ ∧
    ((inicializar_semaforos 1 100 10).get ⟨0, by decide⟩).dur_rojo
      = max 1 (10 - ⌊(10 : ℚ) * (1 / 2)⌋ - ⌊(10 : ℚ) * (1 / 5)⌋) := by
  have := duraciones_semaforo 1 100 10 (by norm_num) 0 (by decide)
  push_cast at this ⊢
  exact this

/-! ### Claim C1: movement rule -/

/-- If no light of the snapshot sits at the destination cell, the scan
finds nothing. -/
theorem buscar_en_destino_ninguno (snap : List Semaforo) (d : Int)
    (h : ∀ s ∈ snap, s.pos ≠ d) :
    buscar_en_destino snap d = none := by
  induction snap with
  | nil => rfl
  | cons s rest ih =>
      unfold buscar_en_destino
      rw [if_neg (h s (List.mem_cons_self s rest))]
      exact ih (fun x hx => h x (List.mem_cons_of_mem s hx))

/-- The scan returns exactly the first light (in snapshot order) whose
position equals the destination. -/
theorem buscar_en_destino_primero (snap : List Semaforo) (d : Int) (j : Nat)
    (hj : j < snap.length) (hpos : (snap.get ⟨j, hj⟩).pos = d)
    (hant : ∀ k (hk : k < snap.length), k < j → (snap.get ⟨k, hk⟩).pos ≠ d) :
    buscar_en_destino snap d = some (snap.get ⟨j, hj⟩) := by
  induction snap generalizing j with
  | nil => exact absurd hj (by simp)
  | cons s rest ih =>
      cases j with
      | zero =>
          have hpos0 : s.pos = d := by simpa using hpos
          unfold buscar_en_destino
          rw [if_pos hpos0]
          simp
      | succ jp =>
          have hjp := Nat.lt_of_succ_lt_succ hj
          have hs : s.pos ≠ d := by simpa using hant 0 (Nat.succ_pos _) (Nat.succ_pos _)
          have hpos2 : (rest.get ⟨jp, hjp⟩).pos = d := by simpa using hpos
          have hant2 : ∀ k (hk : k < rest.length), k < jp → (rest.get ⟨k, hk⟩).pos ≠ d := by
            intro k hk hkj
            simpa using hant (k + 1) (Nat.succ_lt_succ hk) (Nat.succ_lt_succ hkj)
          unfold buscar_en_destino
          rw [if_neg hs, ih jp hjp hpos2 hant2]
          simp

/-- C1: the destination is `(position + max_speed) mod road_length`; the
snapshot is scanned in array order and only the first light at the
destination counts: if its phase is RED or YELLOW the vehicle keeps its
position for the tick, otherwise (no light at the destination, or that
light is GREEN) the position becomes the destination. -/
theorem mover_vehiculo_semaforo_en_destino (v : Vehiculo) (snap : List Semaforo)
    (road_len : Int) :
    ((∀ s ∈ snap, s.pos ≠ mod_pos (v.pos + v.vel_max) road_len) →
        (mover_vehiculo road_len snap v).pos = mod_pos (v.pos + v.vel_max) road_len) ∧
    (∀ j (hj : j < snap.length),
        (snap.get ⟨j, hj⟩).pos = mod_pos (v.pos + v.vel_max) road_len →
        (∀ k (hk : k < snap.length), k < j →
            (snap.get ⟨k, hk⟩).pos ≠ mod_pos (v.pos + v.vel_max) road_len) →
        (((snap.get ⟨j, hj⟩).estado = EstadoSemaforo.ROJO ∨
          (snap.get ⟨j, hj⟩).estado = EstadoSemaforo.AMARILLO) →
            (mover_vehiculo road_len snap v).pos = v.pos) ∧
        ((snap.get ⟨j, hj⟩).estado = EstadoSemaforo.VERDE →
            (mover_vehiculo road_len snap v).pos
              = mod_pos (v.pos + v.vel_max) road_len)) := by
  constructor
  · intro h
    simp only [mover_vehiculo, buscar_en_destino_ninguno snap _ h]
    simp
  · intro j hj hpos hant
    have hfind := buscar_en_destino_primero snap _ j hj hpos hant
    constructor
    · intro hred
      simp only [mover_vehiculo, hfind, if_pos hred]
      simp
    · intro hverde
      have hnr : ¬((snap.get ⟨j, hj⟩).estado = EstadoSemaforo.ROJO ∨
          (snap.get ⟨j, hj⟩).estado = EstadoSemaforo.AMARILLO) := by
        rw [hverde]
        rintro (hc | hc) <;> exact EstadoSemaforo.noConfusion hc
      simp only [mover_vehiculo, hfind, if_neg hnr]
      simp

/-- Witness for C1: a vehicle at 48 with speed 2 facing a RED light at cell
50 on a road of length 100 stays at 48. -/
theorem mover_vehiculo_semaforo_en_destino_testigo :
    (mover_vehiculo 100 [semaforoRojoEn50] vehiculoEn48).pos = 48 :=
  ((mover_vehiculo_semaforo_en_destino vehiculoEn48 [semaforoRojoEn50] 100).2 0 (by decide)
    (by decide) (fun k hk hkj => absurd hkj (Nat.not_lt_zero k))).1 (Or.inl (by decide))

/-! ### Claim C2: light phase transitions -/

/-- Each output light of `actualizar_semaforos` is the per-light update of
the input light at the same index: the iterations are independent. -/
theorem actualizar_semaforos_get (ss : List Semaforo) (i : Nat)
    (hi : i < ss.length) (hi2 : i < (actualizar_semaforos ss).length) :
    (actualizar_semaforos ss).get ⟨i, hi2⟩ = actualizar_semaforo (ss.get ⟨i, hi⟩) := by
  simp [actualizar_semaforos]

theorem actualizar_semaforos_longitud (ss : List Semaforo) :
    (actualizar_semaforos ss).length = ss.length := by
  simp [actualizar_semaforos]

/-- C2: `actualizar_semaforos` updates each light independently; per light
the counter is incremented, and exactly when the incremented counter
reaches the current phase's duration the phase advances along the fixed
cycle GREEN→YELLOW→RED→GREEN and the counter resets to 0; otherwise the
phase stays and the counter keeps the incremented value. -/
theorem actualizar_semaforos_transicion (ss : List Semaforo) :
    (actualizar_semaforos ss).length = ss.length ∧
    (∀ i (hi : i < ss.length) (hi2 : i < (actualizar_semaforos ss).length),
        (actualizar_semaforos ss).get ⟨i, hi2⟩ = actualizar_semaforo (ss.get ⟨i, hi⟩)) ∧
    (∀ s : Semaforo,
        (duracion_de s s.estado ≤ s.t_en_estado + 1 →
            (actualizar_semaforo s).estado = fase_siguiente_spec s.estado ∧
            (actualizar_semaforo s).t_en_estado = 0) ∧
        (s.t_en_estado + 1 < duracion_de s s.estado →
            (actualizar_semaforo s).estado = s.estado ∧
            (actualizar_semaforo s).t_en_estado = s.t_en_estado + 1)) := by
  refine ⟨actualizar_semaforos_longitud ss, actualizar_semaforos_get ss, ?_⟩
  intro s
  obtain ⟨sid, spos, sest, st, sdr, sdv, sda⟩ := s
  cases sest <;>
    constructor <;>
      intro hcmp <;>
        simp only [actualizar_semaforo, limite_estado, siguiente_estado,
          fase_siguiente_spec, duracion_de] at hcmp ⊢ <;>
        split <;> simp_all <;> omega

/-- Witness for C2: a GREEN light with duration 5 whose incremented counter
reaches 5 turns YELLOW and resets its counter. -/
theorem actualizar_semaforos_transicion_testigo :
    (actualizar_semaforo semaforoVerdePorVencer).estado
      = fase_siguiente_spec EstadoSemaforo.VERDE ∧
    (actualizar_semaforo semaforoVerdePorVencer).t_en_estado = 0 :=
  ((actualizar_semaforos_transicion []).2.2 semaforoVerdePorVencer).1 (by decide)

/-! ### Claim C3: the two per-tick composition modes -/

theorem simular_dinamico_sucesor (m : Bool) (L : Int) (k : Nat)
    (st : List Vehiculo × List Semaforo) :
    simular_dinamico m L (k + 1) st = paso m L (simular_dinamico m L k st) := by
  induction k generalizing st with
  | zero => rfl
  | succ k ih => exact ih (paso m L st)

/-- In either mode the lights after `k` ticks are `k` applications of
`actualizar_semaforos` to the initial lights. -/
theorem simular_dinamico_luces (m : Bool) (L : Int) (k : Nat)
    (st : List Vehiculo × List Semaforo) :
    (simular_dinamico m L k st).2 = actualizar_semaforos^[k] st.2 := by
  induction k generalizing st with
  | zero => rfl
  | succ k ih =>
      have h1 : simular_dinamico m L (k + 1) st = simular_dinamico m L k (paso m L st) := rfl
      rw [h1, ih]
      cases m <;> simp [paso, paso_secuencial, paso_secciones, Function.iterate_succ_apply]

/-- C3: sequentially, lights advance first and vehicles move against the
updated (current-tick) snapshot; with sections, the snapshot predates the
update and vehicles move against the previous tick's lights.  The lights
after any number of ticks coincide in both modes, and in sections mode the
vehicles at tick `k+1` are the movement of the tick-`k` vehicles against
the tick-`k` (end of previous tick) lights. -/
theorem modos_secuencial_y_secciones (road_len : Int)
    (st : List Vehiculo × List Semaforo) (k : Nat) :
    (paso_secuencial road_len st).2 = actualizar_semaforos st.2 ∧
    (paso_secuencial road_len st).1 = mover_vehiculos st.1 (actualizar_semaforos st.2) road_len ∧
    (paso_secciones road_len st).2 = actualizar_semaforos st.2 ∧
    (paso_secciones road_len st).1 = mover_vehiculos st.1 st.2 road_len ∧
    (simular_dinamico true road_len k st).2 = (simular_dinamico false road_len k st).2 ∧
    (simular_dinamico true road_len (k + 1) st).1 =
      mover_vehiculos (simular_dinamico true road_len k st).1
        (simular_dinamico true road_len k st).2 road_len := by
  refine ⟨rfl, rfl, rfl, rfl, ?_, ?_⟩
  · rw [simular_dinamico_luces, simular_dinamico_luces]
  · rw [simular_dinamico_sucesor]
    rfl

/-! ### Claim C10: frame effects -/

/-- Frame of `actualizar_semaforo`: it only writes `estado` and `t_en_estado`. -/
theorem actualizar_semaforo_marco (s : Semaforo) :
    (actualizar_semaforo s).id = s.id ∧ (actualizar_semaforo s).pos = s.pos ∧
    (actualizar_semaforo s).dur_verde = s.dur_verde ∧
    (actualizar_semaforo s).dur_amarillo = s.dur_amarillo ∧
    (actualizar_semaforo s).dur_rojo = s.dur_rojo := by
  simp only [actualizar_semaforo]
  split <;> simp

/-- Frame of `mover_vehiculo`: it only writes `pos`. -/
theorem mover_vehiculo_marco (road_len : Int) (snap : List Semaforo) (v : Vehiculo) :
    (mover_vehiculo road_len snap v).id = v.id ∧
    (mover_vehiculo road_len snap v).vel_max = v.vel_max := by
  simp only [mover_vehiculo]
  split <;> simp

/-- C10: `actualizar_semaforos` keeps every light's id, position and three
durations; `mover_vehiculos` keeps every vehicle's id and max speed (and,
being a pure function of the snapshot, cannot write to it — in the C code
the snapshot parameter is `const` and never assigned through). -/
theorem efectos_de_marco (ss snap : List Semaforo) (vs : List Vehiculo) (road_len : Int) :
    (actualizar_semaforos ss).length = ss.length ∧
    (∀ i (hi : i < ss.length) (hi2 : i < (actualizar_semaforos ss).length),
        ((actualizar_semaforos ss).get ⟨i, hi2⟩).id = (ss.get ⟨i, hi⟩).id ∧
        ((actualizar_semaforos ss).get ⟨i, hi2⟩).pos = (ss.get ⟨i, hi⟩).pos ∧
        ((actualizar_semaforos ss).get ⟨i, hi2⟩).dur_verde = (ss.get ⟨i, hi⟩).dur_verde ∧
        ((actualizar_semaforos ss).get ⟨i, hi2⟩).dur_amarillo = (ss.get ⟨i, hi⟩).dur_amarillo ∧
        ((actualizar_semaforos ss).get ⟨i, hi2⟩).dur_rojo = (ss.get ⟨i, hi⟩).dur_rojo) ∧
    (mover_vehiculos vs snap road_len).length = vs.length ∧
    (∀ i (hi : i < vs.length) (hi2 : i < (mover_vehiculos vs snap road_len).length),
        ((mover_vehiculos vs snap road_len).get ⟨i, hi2⟩).id = (vs.get ⟨i, hi⟩).id ∧
        ((mover_vehiculos vs snap road_len).get ⟨i, hi2⟩).vel_max
          = (vs.get ⟨i, hi⟩).vel_max) := by
  refine ⟨actualizar_semaforos_longitud ss, ?_, by simp [mover_vehiculos], ?_⟩
  · intro i hi hi2
    rw [actualizar_semaforos_get ss i hi hi2]
    exact actualizar_semaforo_marco _
  · intro i hi hi2
    have hmv : (mover_vehiculos vs snap road_len).get ⟨i, hi2⟩
        = mover_vehiculo road_len snap (vs.get ⟨i, hi⟩) := by
      simp [mover_vehiculos]
    rw [hmv]
    exact mover_vehiculo_marco _ _ _

/-- Witness for C10 at one light and one vehicle. -/
theorem efectos_de_marco_testigo :
    ((actualizar_semaforos [semaforoVerdeEn50]).get ⟨0, by decide⟩).pos = 50 ∧
    ((mover_vehiculos [vehiculoEn48] [] 100).get ⟨0, by decide⟩).vel_max = 2 :=
  ⟨((efectos_de_marco [semaforoVerdeEn50] [] [vehiculoEn48] 100).2.1
      0 (by decide) (by decide)).2.1,
   ((efectos_de_marco [semaforoVerdeEn50] [] [vehiculoEn48] 100).2.2.2
      0 (by decide) (by decide)).2⟩

/-! ### Claim C4: position invariants -/

/-- Every initialized vehicle position lies in `[0, road)`. -/
theorem inicializar_vehiculos_pos (n : Nat) (road : Int) (r : Nat → Nat) (hroad : 0 < road) :
    ∀ v ∈ inicializar_vehiculos n road r, 0 ≤ v.pos ∧ v.pos < road := by
  intro v hv
  simp only [inicializar_vehiculos, List.mem_map, List.mem_range] at hv
  obtain ⟨i, hi, rfl⟩ := hv
  split <;> split <;> exact mod_pos_cotas _ road hroad

/-- Moving vehicles keeps every position in `[0, road)`. -/
theorem mover_vehiculos_preserva_rango (vs : List Vehiculo) (snap : List Semaforo)
    (road : Int) (hroad : 0 < road)
    (h : ∀ v ∈ vs, 0 ≤ v.pos ∧ v.pos < road) :
    ∀ v ∈ mover_vehiculos vs snap road, 0 ≤ v.pos ∧ v.pos < road := by
  intro v hv
  simp only [mover_vehiculos, List.mem_map] at hv
  obtain ⟨w, hw, rfl⟩ := hv
  simp only [mover_vehiculo]
  split
  · exact mod_pos_cotas _ road hroad
  · exact h w hw

/-- Advancing the lights never changes any light's position. -/
theorem actualizar_semaforos_pos_map (ss : List Semaforo) :
    (actualizar_semaforos ss).map Semaforo.pos = ss.map Semaforo.pos := by
  unfold actualizar_semaforos
  rw [List.map_map]
  apply List.map_congr_left
  intro s _
  exact (actualizar_semaforo_marco s).2.1

/-- Any number of ticks in either mode keeps vehicle positions in range and
the light positions unchanged. -/
theorem simular_dinamico_preserva (m : Bool) (L : Int) (hL : 0 < L) (k : Nat)
    (st : List Vehiculo × List Semaforo)
    (hv : ∀ v ∈ st.1, 0 ≤ v.pos ∧ v.pos < L) :
    (∀ v ∈ (simular_dinamico m L k st).1, 0 ≤ v.pos ∧ v.pos < L) ∧
    (simular_dinamico m L k st).2.map Semaforo.pos = st.2.map Semaforo.pos := by
  induction k generalizing st with
  | zero => exact ⟨hv, rfl⟩
  | succ k ih =>
      have hpaso_v : ∀ v ∈ (paso m L st).1, 0 ≤ v.pos ∧ v.pos < L := by
        cases m
        · exact mover_vehiculos_preserva_rango st.1 _ L hL hv
        · exact mover_vehiculos_preserva_rango st.1 _ L hL hv
      have h1 : simular_dinamico m L (k + 1) st = simular_dinamico m L k (paso m L st) := rfl
      rw [h1]
      refine ⟨(ih (paso m L st) hpaso_v).1, ?_⟩
      rw [(ih (paso m L st) hpaso_v).2]
      cases m
      · exact actualizar_semaforos_pos_map st.2
      · exact actualizar_semaforos_pos_map st.2

/-- C4: on a run with `road > 0` (initialization followed by any number of
ticks in either mode), every vehicle position stays in `[0, road)`, every
light position equals its initialized value, and `mod_pos` is the true
mathematical modulo (non-negative remainder). -/
theorem posiciones_en_rango (modo : Bool) (n_veh n_sem : Nat) (road ciclo : Int)
    (r : Nat → Nat) (k : Nat) (hroad : 0 < road) :
    (∀ v ∈ (simular_dinamico modo road k
        (inicializar_vehiculos n_veh road r, inicializar_semaforos n_sem road ciclo)).1,
        0 ≤ v.pos ∧ v.pos < road) ∧
    (simular_dinamico modo road k
        (inicializar_vehiculos n_veh road r, inicializar_semaforos n_sem road ciclo)).2.map
          Semaforo.pos
      = (inicializar_semaforos n_sem road ciclo).map Semaforo.pos ∧
    (∀ x m : Int, 0 < m → mod_pos x m = x % m ∧ 0 ≤ x % m ∧ x % m < m) := by
  have h := simular_dinamico_preserva modo road hroad k
      (inicializar_vehiculos n_veh road r, inicializar_semaforos n_sem road ciclo)
      (inicializar_vehiculos_pos n_veh road r hroad)
  exact ⟨h.1, h.2, fun x m hm =>
    ⟨mod_pos_eq_emod x m hm, Int.emod_nonneg x (ne_of_gt hm), Int.emod_lt_of_pos x hm⟩⟩

/-- Witness for C4: one sequential tick of a 1-vehicle, 1-light run on a
road of length 10. -/
theorem posiciones_en_rango_testigo :
    (0 : Int) < 10 ∧
    (simular_dinamico false 10 1
        (inicializar_vehiculos 1 10 (fun _ => 0), inicializar_semaforos 1 10 9)).2.map
          Semaforo.pos
      = (inicializar_semaforos 1 10 9).map Semaforo.pos :=
  ⟨by norm_num, (posiciones_en_rango false 1 1 10 9 (fun _ => 0) 1 (by norm_num)).2.1⟩

/-! ### Claim C5: phase-counter invariant -/

theorem actualizar_semaforo_sano (s : Semaforo) (h : semaforo_sano s) :
    semaforo_sano (actualizar_semaforo s) := by
  obtain ⟨h1, h2, h3, h4⟩ := h
  have hm := actualizar_semaforo_marco s
  refine ⟨hm.2.2.1 ▸ h1, hm.2.2.2.1 ▸ h2, hm.2.2.2.2 ▸ h3, ?_⟩
  simp only [actualizar_semaforo]
  split
  · simp
  · simp
    omega

theorem semaforo_sano_iterado (s : Semaforo) (h : semaforo_sano s) (k : Nat) :
    semaforo_sano (actualizar_semaforo^[k] s) := by
  induction k with
  | zero => exact h
  | succ k ih =>
      rw [Function.iterate_succ_apply']
      exact actualizar_semaforo_sano _ ih

/-- After one update of a healthy light the counter stays strictly below
the (new) current phase's duration. -/
theorem actualizar_semaforo_cota (s : Semaforo) (h : semaforo_sano s) :
    0 ≤ (actualizar_semaforo s).t_en_estado ∧
    (actualizar_semaforo s).t_en_estado
      < duracion_de (actualizar_semaforo s) (actualizar_semaforo s).estado := by
  obtain ⟨h1, h2, h3, h4⟩ := h
  obtain ⟨sid, spos, sest, st, sdr, sdv, sda⟩ := s
  cases sest <;>
    (simp only [actualizar_semaforo, limite_estado, siguiente_estado, duracion_de]
        at h1 h2 h3 h4 ⊢;
      split <;> simp_all <;> omega)

/-- One update resets the counter exactly when it changes the phase. -/
theorem actualizar_semaforo_reinicio (s : Semaforo) (h : 0 ≤ s.t_en_estado) :
    ((actualizar_semaforo s).t_en_estado = 0 ↔ (actualizar_semaforo s).estado ≠ s.estado) := by
  obtain ⟨sid, spos, sest, st, sdr, sdv, sda⟩ := s
  cases sest <;>
    (simp only [actualizar_semaforo, limite_estado, siguiente_estado] at h ⊢;
      split <;> simp_all <;> omega)

/-- C5: for a light with positive durations (as initialization guarantees),
after every update along a run the counter lies in
`[0, duration_for(current phase))`, and the counter is 0 after a tick
exactly when that tick changed the phase; initialization indeed produces
durations `≥ 1` and counter `0` for every light. -/
theorem contador_de_fase (s : Semaforo)
    (hdv : 1 ≤ s.dur_verde) (hda : 1 ≤ s.dur_amarillo) (hdr : 1 ≤ s.dur_rojo)
    (ht : 0 ≤ s.t_en_estado) (k : Nat) :
    (0 ≤ (actualizar_semaforo^[k + 1] s).t_en_estado ∧
     (actualizar_semaforo^[k + 1] s).t_en_estado
       < duracion_de (actualizar_semaforo^[k + 1] s) (actualizar_semaforo^[k + 1] s).estado) ∧
    ((actualizar_semaforo^[k + 1] s).t_en_estado = 0 ↔
      (actualizar_semaforo^[k + 1] s).estado ≠ (actualizar_semaforo^[k] s).estado) ∧
    (∀ (n : Nat) (road ciclo : Int), ∀ l ∈ inicializar_semaforos n road ciclo,
        1 ≤ l.dur_verde ∧ 1 ≤ l.dur_amarillo ∧ 1 ≤ l.dur_rojo ∧ l.t_en_estado = 0) := by
  have hsano : semaforo_sano (actualizar_semaforo^[k] s) :=
    semaforo_sano_iterado s ⟨hdv, hda, hdr, ht⟩ k
  have hstep : actualizar_semaforo^[k + 1] s
      = actualizar_semaforo (actualizar_semaforo^[k] s) :=
    Function.iterate_succ_apply' _ _ _
  rw [hstep]
  refine ⟨actualizar_semaforo_cota _ hsano,
    actualizar_semaforo_reinicio _ hsano.2.2.2, ?_⟩
  intro n road ciclo l hl
  simp only [inicializar_semaforos, List.mem_map, List.mem_range] at hl
  obtain ⟨i, hi, rfl⟩ := hl
  refine ⟨?_, ?_, ?_, rfl⟩ <;> (dsimp only; split <;> omega)

/-- Witness for C5: one update of a GREEN light at the end of its green
duration, which transitions and resets the counter. -/
theorem contador_de_fase_testigo :
    0 ≤ (actualizar_semaforo^[1] semaforoVerdePorVencer).t_en_estado ∧
    ((actualizar_semaforo^[1] semaforoVerdePorVencer).t_en_estado = 0 ↔
      (actualizar_semaforo^[1] semaforoVerdePorVencer).estado
        ≠ (actualizar_semaforo^[0] semaforoVerdePorVencer).estado) :=
  ⟨(contador_de_fase semaforoVerdePorVencer (by decide) (by decide) (by decide)
      (by decide) 0).1.1,
   (contador_de_fase semaforoVerdePorVencer (by decide) (by decide) (by decide)
      (by decide) 0).2.1⟩

/-! ### Claim C8: determinism of initialization -/

/-- Counterexample to C8 as stated: with the same arguments (n = 2, road
10) and the same `rand()` stream, two realizable interleavings of the
parallel loop's shared `rand()` draws — the sequential one and the one
where the second iteration's thread draws first — produce different
vehicle arrays. -/
theorem inicializacion_no_determinista :
    HorarioValido 2 (fun i => (2 * i, 2 * i + 1)) ∧
    HorarioValido 2 (fun i => if i = 0 then (2, 3) else (0, 1)) ∧
    inicializar_vehiculos_intercalado 2 10 (fun j => j) (fun i => (2 * i, 2 * i + 1)) ≠
      inicializar_vehiculos_intercalado 2 10 (fun j => j)
        (fun i => if i = 0 then (2, 3) else (0, 1)) := by
  refine ⟨?_, ?_, by decide⟩ <;> (unfold HorarioValido; decide)

/-- C8 (amended): light initialization draws no random values and is
deterministic in its arguments; vehicle initialization is deterministic
once the interleaving of the shared `rand()` stream is fixed — its output
depends only on the stream values its schedule reads (for the sequential
schedule, the first `2n` values). -/
theorem inicializacion_determinista_horario_fijo (n : Nat) (road ciclo : Int)
    (r rp : Nat → Nat) (σ : Nat → Nat × Nat)
    (h1 : ∀ i, i < n → r ((σ i).1) = rp ((σ i).1) ∧ r ((σ i).2) = rp ((σ i).2))
    (h2 : ∀ j, j < 2 * n → r j = rp j) :
    inicializar_vehiculos_intercalado n road r σ
      = inicializar_vehiculos_intercalado n road rp σ ∧
    inicializar_vehiculos n road r = inicializar_vehiculos n road rp ∧
    inicializar_semaforos n road ciclo = inicializar_semaforos n road ciclo := by
  refine ⟨?_, ?_, rfl⟩
  · simp only [inicializar_vehiculos_intercalado]
    apply List.map_congr_left
    intro i hi
    rw [List.mem_range] at hi
    obtain ⟨e1, e2⟩ := h1 i hi
    rw [e1, e2]
  · simp only [inicializar_vehiculos]
    apply List.map_congr_left
    intro i hi
    rw [List.mem_range] at hi
    rw [h2 (2 * i) (by omega), h2 (2 * i + 1) (by omega), h2 i (by omega)]

/-- Witness for C8's amended statement: two distinct streams agreeing on
their first four values initialize two vehicles identically. -/
theorem inicializacion_determinista_horario_fijo_testigo :
    inicializar_vehiculos 2 10 (fun j => j) = inicializar_vehiculos 2 10 (fun j => min j 3) :=
  (inicializacion_determinista_horario_fijo 2 10 9 (fun j => j) (fun j => min j 3)
    (fun i => (2 * i, 2 * i + 1)) (by decide) (by decide)).2.1

end Trafico
